import Mathlib

/-!
# Verification of the secure-download token engine

Shallow embedding of `src/utils/secureDownloads.ts`: token generation,
the verification pipeline, audit logging, revocation, plus a small
interleaving model for concurrent verification of a single token row.

JavaScript strings are modelled as `List Char`; timestamps (JS `Date`
values compared with `<` / `>`) as `Int` (milliseconds); the Supabase
datastore as an explicit record of tables, with error outcomes of the
individual datastore calls supplied by an environment record (the code
observes every datastore call only through its `{ data, error }` result).
-/

/-- JavaScript strings, modelled as lists of characters. -/
abbrev JStr := List Char

/-- Model of `String.prototype.toLowerCase()` (ASCII case mapping). -/
def jsToLower (s : JStr) : JStr := s.map Char.toLower

/-- Model of `String.prototype.trim()`: drop leading and trailing whitespace. -/
def jsTrim (s : JStr) : JStr :=
  ((s.dropWhile Char.isWhitespace).reverse.dropWhile Char.isWhitespace).reverse

/-- Composition `s.toLowerCase().trim()` — the email normalisation used throughout the file
(lines 88, 124, 189, 241, 326, 506 of the source). -/
def lowerTrim (s : JStr) : JStr := jsTrim (jsToLower s)

/-- A row of the `secure_download_tokens` table
(interface `SecureDownloadToken`, source lines 4–16). -/
structure SecureDownloadToken where
  id : Nat
  token : JStr
  document_id : Nat
  recipient_email : JStr
  order_id : Nat
  expires_at : Int
  max_downloads : Nat
  download_count : Nat
  is_active : Bool
  updated_at : Int
deriving Repr, DecidableEq

/-- A row of the `project_documents` table, as joined by the verification
query (source lines 196–204). -/
structure ProjectDocument where
  id : Nat
  name : JStr
  url : JStr
deriving Repr, DecidableEq

/-- The failure taxonomy of the verification pipeline.  Each constructor
corresponds to one literal reason string of the source:
`invalidOrExpired` ↦ "Invalid or expired token" (line 212),
`tokenExpired` ↦ "Token expired" (line 225),
`emailMismatch` ↦ "Email mismatch" (line 249),
`downloadLimitExceeded` ↦ "Download limit exceeded" (line 260),
`documentNotFound` ↦ "Document not found" (line 271),
`systemError` ↦ "System error" (line 305). -/
inductive FailureReason where
  | invalidOrExpired
  | tokenExpired
  | emailMismatch
  | downloadLimitExceeded
  | documentNotFound
  | systemError
deriving Repr, DecidableEq

/-- A row of the `download_attempts` table
(interface `DownloadAttempt`, source lines 18–27). -/
structure DownloadAttempt where
  token_id : Option Nat
  attempted_email : JStr
  ip_address : Option JStr
  user_agent : Option JStr
  success : Bool
  failure_reason : Option FailureReason
  attempted_at : Int
deriving Repr, DecidableEq

/-- The datastore visible to the engine: the two tables it writes and the
joined documents table. -/
structure Store where
  tokens : List SecureDownloadToken
  documents : List ProjectDocument
  attempts : List DownloadAttempt
deriving Repr, DecidableEq

/-- Outcomes of the datastore calls made during one verification call,
plus the clock.  `systemError` models an unexpected exception thrown at
the start of the `try` block (caught at source line 303);
`updateCountFails` is the `updateError` of the download-count update
(line 293); `auditInsertFails` is the insert error swallowed by
`logDownloadAttempt` (lines 334–340). -/
structure VerifyEnv where
  now : Int
  systemError : Bool
  updateCountFails : Bool
  auditInsertFails : Bool
deriving Repr, DecidableEq

/-- The `download_attempts` row built by `logDownloadAttempt`
(source lines 322–332); the email is normalised again at line 326. -/
def mkAttempt (env : VerifyEnv) (tokenId : Option Nat) (attemptedEmail : JStr)
    (success : Bool) (failureReason : Option FailureReason)
    (ipAddress userAgent : Option JStr) : DownloadAttempt :=
  { token_id := tokenId
    attempted_email := lowerTrim attemptedEmail
    ip_address := ipAddress
    user_agent := userAgent
    success := success
    failure_reason := failureReason
    attempted_at := env.now }

/-- Function `logDownloadAttempt` (source lines 313–342): insert one attempt row;
an insert error (or exception) is caught and swallowed, so the function
always returns a store and never fails. -/
def logDownloadAttempt (env : VerifyEnv) (st : Store) (tokenId : Option Nat)
    (attemptedEmail : JStr) (success : Bool) (failureReason : Option FailureReason)
    (ipAddress userAgent : Option JStr) : Store :=
  if env.auditInsertFails then st
  else { st with attempts :=
          st.attempts ++ [mkAttempt env tokenId attemptedEmail success failureReason
                            ipAddress userAgent] }

/-- The value returned by `verifyDownloadToken` (source lines 178–183). -/
structure VerifyResult where
  valid : Bool
  document : Option ProjectDocument
  reason : Option FailureReason
  tokenData : Option SecureDownloadToken
deriving Repr, DecidableEq

/-- Full outcome of one verification call: the returned value, the
datastore afterwards, and the list of audit-logger invocations made
(the rows passed to `logDownloadAttempt`, whether or not the insert
succeeded). -/
structure VerifyOut where
  result : VerifyResult
  store : Store
  auditCalls : List DownloadAttempt
deriving Repr, DecidableEq

/-- The token lookup of source lines 192–208: select the row matching the
token string with `is_active = true` (`.single()`; the token column is
unique in the schema). -/
def findToken (st : Store) (token : JStr) : Option SecureDownloadToken :=
  st.tokens.find? (fun t => t.token == token && t.is_active)

/-- The `project_documents` join of the same query: the document row
referenced by the token, if it still exists. -/
def findDocument (st : Store) (t : SecureDownloadToken) : Option ProjectDocument :=
  st.documents.find? (fun d => d.id == t.document_id)

/-- The email-match check of source lines 241–244: both sides are
normalised with `toLowerCase().trim()` and compared for equality. -/
def emailMatches (recipientEmail attemptedEmail : JStr) : Bool :=
  lowerTrim recipientEmail == lowerTrim attemptedEmail

/-- Function `verifyDownloadToken` (source lines 173–308): the ordered pipeline
lookup → expiration → email match → quota → document existence → success,
each branch logging exactly one attempt.  The expired branch also
deactivates the token (lines 228–231); the success branch writes
`download_count := snapshot + 1` (lines 285–291), and ignores
`updateError` (lines 293–295).  An unexpected exception
(`env.systemError`) is caught at line 303 and logs a system-error
attempt with a null token id. -/
def verifyDownloadToken (env : VerifyEnv) (st : Store) (token : JStr)
    (attemptedEmail : JStr) (ipAddress userAgent : Option JStr) : VerifyOut :=
  if env.systemError then
    let call := mkAttempt env none (lowerTrim attemptedEmail) false
      (some .systemError) ipAddress userAgent
    { result := { valid := false, document := none, reason := some .systemError,
                  tokenData := none }
      store := logDownloadAttempt env st none (lowerTrim attemptedEmail) false
        (some .systemError) ipAddress userAgent
      auditCalls := [call] }
  else
    let normalizedAttemptedEmail := lowerTrim attemptedEmail
    match findToken st token with
    | none =>
      { result := { valid := false, document := none,
                    reason := some .invalidOrExpired, tokenData := none }
        store := logDownloadAttempt env st none normalizedAttemptedEmail false
          (some .invalidOrExpired) ipAddress userAgent
        auditCalls := [mkAttempt env none normalizedAttemptedEmail false
          (some .invalidOrExpired) ipAddress userAgent] }
    | some tokenData =>
      if env.now > tokenData.expires_at then
        let st1 := logDownloadAttempt env st (some tokenData.id)
          normalizedAttemptedEmail false (some .tokenExpired) ipAddress userAgent
        let st2 := { st1 with tokens := st1.tokens.map (fun t =>
          if t.id == tokenData.id then
            { t with is_active := false, updated_at := env.now } else t) }
        { result := { valid := false, document := none,
                      reason := some .tokenExpired, tokenData := some tokenData }
          store := st2
          auditCalls := [mkAttempt env (some tokenData.id) normalizedAttemptedEmail
            false (some .tokenExpired) ipAddress userAgent] }
      else if !emailMatches tokenData.recipient_email attemptedEmail then
        { result := { valid := false, document := none,
                      reason := some .emailMismatch, tokenData := some tokenData }
          store := logDownloadAttempt env st (some tokenData.id)
            normalizedAttemptedEmail false (some .emailMismatch) ipAddress userAgent
          auditCalls := [mkAttempt env (some tokenData.id) normalizedAttemptedEmail
            false (some .emailMismatch) ipAddress userAgent] }
      else if tokenData.download_count ≥ tokenData.max_downloads then
        { result := { valid := false, document := none,
                      reason := some .downloadLimitExceeded,
                      tokenData := some tokenData }
          store := logDownloadAttempt env st (some tokenData.id)
            normalizedAttemptedEmail false (some .downloadLimitExceeded)
            ipAddress userAgent
          auditCalls := [mkAttempt env (some tokenData.id) normalizedAttemptedEmail
            false (some .downloadLimitExceeded) ipAddress userAgent] }
      else
        match findDocument st tokenData with
        | none =>
          { result := { valid := false, document := none,
                        reason := some .documentNotFound,
                        tokenData := some tokenData }
            store := logDownloadAttempt env st (some tokenData.id)
              normalizedAttemptedEmail false (some .documentNotFound)
              ipAddress userAgent
            auditCalls := [mkAttempt env (some tokenData.id)
              normalizedAttemptedEmail false (some .documentNotFound)
              ipAddress userAgent] }
        | some doc =>
          let st1 := logDownloadAttempt env st (some tokenData.id)
            normalizedAttemptedEmail true none ipAddress userAgent
          let st2 :=
            if env.updateCountFails then st1
            else { st1 with tokens := st1.tokens.map (fun t =>
              if t.id == tokenData.id then
                { t with download_count := tokenData.download_count + 1,
                         updated_at := env.now } else t) }
          { result := { valid := true, document := some doc, reason := none,
                        tokenData := some tokenData }
            store := st2
            auditCalls := [mkAttempt env (some tokenData.id)
              normalizedAttemptedEmail true none ipAddress userAgent] }

/-- Specification-side projection of the pipeline: the reason of the first
failing check, applying the checks in the order of §4.2 of the spec
(lookup, expiration, email match, quota, document existence), `none`
when all checks pass.  Used to state claim C3. -/
def firstFailingCheck (env : VerifyEnv) (st : Store) (token attemptedEmail : JStr) :
    Option FailureReason :=
  if env.systemError then some .systemError
  else
    match findToken st token with
    | none => some .invalidOrExpired
    | some t =>
      if env.now > t.expires_at then some .tokenExpired
      else if !emailMatches t.recipient_email attemptedEmail then some .emailMismatch
      else if t.download_count ≥ t.max_downloads then some .downloadLimitExceeded
      else if (findDocument st t).isNone then some .documentNotFound
      else none

/-- The character class `[^\s@]` of the email regex at source line 382:
any character that is neither whitespace nor an at sign. -/
def emailChar (c : Char) : Bool := !c.isWhitespace && c != '@'

/-- The anchored regex `^[^\s@]+@[^\s@]+\.[^\s@]+$` of source line 382,
as a decision procedure on the whole string: a maximal run of
`[^\s@]` characters must be non-empty and be followed by `@`; the rest
must consist of `[^\s@]` characters and contain a `.` that is neither
its first nor its last character (so that `[^\s@]+` matches on both
sides of it). -/
def emailRegexTest (l : JStr) : Bool :=
  match l.dropWhile emailChar with
  | '@' :: b =>
    !(l.takeWhile emailChar).isEmpty && b.all emailChar &&
      b.tail.dropLast.contains '.'
  | _ => false

/-- Function `validateEmail` (source lines 381–384): test the regex against the
trimmed input. -/
def validateEmail (email : JStr) : Bool := emailRegexTest (jsTrim email)

/-- Function `revokeDownloadToken` (source lines 389–404): set `is_active := false`
on the row with the given id; a datastore error or exception
(`updateFails`) is caught and yields `false` with no change; otherwise
return `true` (also when no row matched). -/
def revokeDownloadToken (now : Int) (updateFails : Bool) (st : Store)
    (tokenId : Nat) : Store × Bool :=
  if updateFails then (st, false)
  else
    ({ st with tokens := st.tokens.map (fun t =>
        if t.id == tokenId then { t with is_active := false, updated_at := now }
        else t) },
     true)

/-- A document passed to token generation (source lines 46–50). -/
structure GenDoc where
  id : Nat
  name : JStr
  url : JStr
deriving Repr, DecidableEq

/-- A shareable reference returned by token generation
(source lines 54–59). -/
structure GenRef where
  documentId : Nat
  documentName : JStr
  secureUrl : JStr
  expiresAt : Int
deriving Repr, DecidableEq

/-- Interface `SecureDownloadConfig` (source lines 29–33). -/
structure SecureDownloadConfig where
  expirationHours : Nat
  maxDownloads : Nat
  requireEmailVerification : Bool
deriving Repr, DecidableEq

/-- Constant `DEFAULT_CONFIG` (source lines 36–40). -/
def DEFAULT_CONFIG : SecureDownloadConfig :=
  { expirationHours := 72, maxDownloads := 5, requireEmailVerification := true }

/-- Type `Partial<SecureDownloadConfig>` — the optional override argument. -/
structure PartialSecureDownloadConfig where
  expirationHours : Option Nat := none
  maxDownloads : Option Nat := none
  requireEmailVerification : Option Bool := none
deriving Repr, DecidableEq

/-- The spread `{ ...DEFAULT_CONFIG, ...config }` of source line 60. -/
def mergeConfig (config : PartialSecureDownloadConfig) : SecureDownloadConfig :=
  { expirationHours := config.expirationHours.getD DEFAULT_CONFIG.expirationHours
    maxDownloads := config.maxDownloads.getD DEFAULT_CONFIG.maxDownloads
    requireEmailVerification :=
      config.requireEmailVerification.getD DEFAULT_CONFIG.requireEmailVerification }

/-- Environment for one token-generation batch.  Outcomes are indexed by
the position of the document in the batch: `rpcToken i` is the result of
the `generate_secure_token` RPC for document `i` (`none` = RPC error,
triggering the client-side fallback of lines 77–113); `clientToken i` is
the fallback token produced by `generateClientSideToken` (`Math.random`,
lines 161–168); `storeFails i` is the insert error of the token row
(lines 98, 134); `docThrows i` models an unexpected exception for that
document, caught per document at line 150; `newId i` is the datastore-
assigned row id.  `encodeEmail` is `encodeURIComponent` (an external
collaborator; the claims do not depend on its output). -/
structure GenEnv where
  rpcToken : Nat → Option JStr
  clientToken : Nat → JStr
  storeFails : Nat → Bool
  docThrows : Nat → Bool
  newId : Nat → Nat
  baseUrl : JStr
  encodeEmail : JStr → JStr
  now : Int

/-- The secure URL built at source lines 104–105 / 140–141:
`{base}/secure-download/{token}?email={encodeURIComponent(email)}`. -/
def mkSecureUrl (env : GenEnv) (token recipientEmail : JStr) : JStr :=
  env.baseUrl ++ ("/secure-download/").data ++ token ++ ("?email=").data ++
    env.encodeEmail recipientEmail

/-- The token row inserted for one document
(source lines 85–94 / 121–130). -/
def mkTokenRow (env : GenEnv) (i : Nat) (token : JStr) (d : GenDoc)
    (recipientEmail : JStr) (orderId : Nat) (expiresAt : Int)
    (cfg : SecureDownloadConfig) : SecureDownloadToken :=
  { id := env.newId i
    token := token
    document_id := d.id
    recipient_email := lowerTrim recipientEmail
    order_id := orderId
    expires_at := expiresAt
    max_downloads := cfg.maxDownloads
    download_count := 0
    is_active := true
    updated_at := env.now }

/-- The per-document loop of `generateSecureDownloadTokens`
(source lines 71–153), with `i` the position of the current document in
the batch.  An unexpected exception (`docThrows`) or an insert error
(`storeFails`) skips the document (`continue`); both the RPC branch and
the client-side-fallback branch insert the same row and push the same
reference, differing only in the token value. -/
def generateLoop (env : GenEnv) (recipientEmail : JStr) (orderId : Nat)
    (expiresAt : Int) (cfg : SecureDownloadConfig) :
    Nat → List GenDoc → Store → List GenRef × Store
  | _, [], st => ([], st)
  | i, d :: rest, st =>
    if env.docThrows i then generateLoop env recipientEmail orderId expiresAt cfg
      (i + 1) rest st
    else
      let token :=
        match env.rpcToken i with
        | some t => t
        | none => env.clientToken i
      if env.storeFails i then
        generateLoop env recipientEmail orderId expiresAt cfg (i + 1) rest st
      else
        let st1 := { st with tokens := st.tokens ++
          [mkTokenRow env i token d recipientEmail orderId expiresAt cfg] }
        let out := generateLoop env recipientEmail orderId expiresAt cfg
          (i + 1) rest st1
        (⟨d.id, d.name, mkSecureUrl env token recipientEmail, expiresAt⟩ :: out.1,
         out.2)

/-- Function `generateSecureDownloadTokens` (source lines 45–156): compute the
expiration timestamp from the merged configuration (hours converted to
milliseconds, line 62) and run the per-document loop. -/
def generateSecureDownloadTokens (env : GenEnv) (documents : List GenDoc)
    (recipientEmail : JStr) (orderId : Nat)
    (config : PartialSecureDownloadConfig) (st : Store) : List GenRef × Store :=
  let finalConfig := mergeConfig config
  let expiresAt := env.now + finalConfig.expirationHours * 3600000
  generateLoop env recipientEmail orderId expiresAt finalConfig 0 documents st

/-- A document at batch position `i` yields a shareable reference exactly
when its processing neither threw nor had its insert rejected. -/
def genSucceeds (env : GenEnv) (i : Nat) : Bool :=
  !env.docThrows i && !env.storeFails i

/-- State of one in-flight verification call against the shared token row,
for the interleaving model of §5 of the spec: `pending` — the call has
not yet executed its select (source lines 192–208); `got snap` — the call
holds the row snapshot `snap` returned by its select, and every later
check and write of that call uses only this snapshot; `done` — the call
has returned. -/
inductive SessState where
  | pending : SessState
  | got : SecureDownloadToken → SessState
  | done : SessState
deriving Repr, DecidableEq

/-- Global state of the interleaving model: the single shared
`secure_download_tokens` row and the in-flight verification calls. -/
structure CState where
  row : SecureDownloadToken
  sessions : List SessState
deriving Repr, DecidableEq

/-- One atomic datastore access by one verification call, interleaved
arbitrarily with the other calls.
`read`: the select (lines 192–208) snapshots the current row.
`writeCount`: the success-branch update (lines 285–291) writes the
absolute value `snap.download_count + 1` computed from the snapshot;
it is only reached when the quota check of line 258 passed on that same
snapshot, i.e. `snap.download_count < snap.max_downloads`.
`deactivate`: the expired-branch update (lines 228–231) clears
`is_active`.  `abort`: the call returns without writing the row (any
failing check, or an update whose `updateError` is reported). -/
inductive CStep : CState → CState → Prop where
  | read (row : SecureDownloadToken) (l1 l2 : List SessState) :
      CStep ⟨row, l1 ++ SessState.pending :: l2⟩
            ⟨row, l1 ++ SessState.got row :: l2⟩
  | writeCount (row snap : SecureDownloadToken) (l1 l2 : List SessState)
      (t : Int) (h : snap.download_count < snap.max_downloads) :
      CStep ⟨row, l1 ++ SessState.got snap :: l2⟩
            ⟨{ row with download_count := snap.download_count + 1,
                        updated_at := t },
              l1 ++ SessState.done :: l2⟩
  | deactivate (row snap : SecureDownloadToken) (l1 l2 : List SessState)
      (t : Int) :
      CStep ⟨row, l1 ++ SessState.got snap :: l2⟩
            ⟨{ row with is_active := false, updated_at := t },
              l1 ++ SessState.done :: l2⟩
  | abort (row snap : SecureDownloadToken) (l1 l2 : List SessState) :
      CStep ⟨row, l1 ++ SessState.got snap :: l2⟩
            ⟨row, l1 ++ SessState.done :: l2⟩

/-- Reachability in the interleaving model. -/
def CReach : CState → CState → Prop := Relation.ReflTransGen CStep

/-- A session's snapshot, if it holds one, records the same
`max_downloads` as `M` (`max_downloads` is immutable: no step writes
it). -/
def snapMaxOk (M : Nat) : SessState → Prop
  | SessState.got s => s.max_downloads = M
  | _ => True

/-- The inductive invariant of the interleaving model: the row's ceiling
is `M`, its counter is within the ceiling, and every held snapshot was
taken from a row with ceiling `M`. -/
def CInv (M : Nat) (st : CState) : Prop :=
  st.row.max_downloads = M ∧ st.row.download_count ≤ M ∧
    ∀ s ∈ st.sessions, snapMaxOk M s

/-- The claim-as-stated predicate of C7, word for word from the claim:
the string contains no whitespace, has exactly one at sign partitioning
a non-empty local part from a domain part containing at least one dot. -/
def claimedValidEmail (l : JStr) : Bool :=
  l.all (fun c => !c.isWhitespace) && l.count '@' == 1 &&
    !(l.takeWhile (fun c => c != '@')).isEmpty &&
    (l.dropWhile (fun c => c != '@')).tail.contains '.'

/-- Declarative reading of the regex of source line 382: the string splits
as `local ++ @ ++ x ++ . ++ y` with `local`, `x`, `y` non-empty and all
their characters in the class `[^\s@]`. -/
def emailRegexSpec (l : JStr) : Prop :=
  ∃ a x y : JStr, l = a ++ '@' :: (x ++ '.' :: y) ∧ a ≠ [] ∧ x ≠ [] ∧ y ≠ [] ∧
    (∀ c ∈ a, emailChar c = true) ∧ (∀ c ∈ x, emailChar c = true) ∧
    (∀ c ∈ y, emailChar c = true)

/-- Concrete fixture: an active token bound to `User@Example.com`,
expiring at time 1000, quota 5, no downloads yet. -/
def tokRow : SecureDownloadToken :=
  { id := 1, token := ("TOK").data, document_id := 10,
    recipient_email := ("User@Example.com").data, order_id := 7,
    expires_at := 1000, max_downloads := 5, download_count := 0,
    is_active := true, updated_at := 0 }

/-- Concrete fixture: the document the fixture token points to. -/
def docRow : ProjectDocument :=
  { id := 10, name := ("D1").data, url := ("u1").data }

/-- Concrete fixture: a store holding the fixture token and document. -/
def baseStore : Store :=
  { tokens := [tokRow], documents := [docRow], attempts := [] }

/-- Concrete fixture: a verification environment where every datastore
call succeeds, at time 500 (before the fixture token expires). -/
def envOk : VerifyEnv :=
  { now := 500, systemError := false, updateCountFails := false,
    auditInsertFails := false }

/-- Concrete fixture: like `envOk` but the download-count update reports
an error. -/
def envUpdateFail : VerifyEnv :=
  { envOk with updateCountFails := true }

/-- C5: the email-match check of verification passes exactly when the
stored recipient email and the claimed email are equal after
lower-casing and trimming both sides; in particular, the fixture token
bound to `User@Example.com` verifies successfully with claimed email
` user@example.com `. -/
theorem C5_email_comparison_normalised :
    (∀ stored claimed : JStr,
      emailMatches stored claimed = true ↔
        jsTrim (jsToLower stored) = jsTrim (jsToLower claimed)) ∧
    (verifyDownloadToken envOk baseStore (("TOK").data)
      ((" user@example.com ").data) none none).result.valid = true := by
  constructor
  · intro stored claimed
    simp [emailMatches, lowerTrim]
  · rfl

/-- C8: revocation returns `true` both on a first revocation and on a
revocation of an already-revoked token (idempotence), and — whatever the
datastore outcome — never changes any token's download count, nor the
attempts table; as a total function it never throws. -/
theorem C8_revoke_idempotent_count_preserved :
    (∀ (n1 n2 : Int) (st : Store) (tid : Nat),
        (revokeDownloadToken n1 false st tid).2 = true ∧
        (revokeDownloadToken n2 false
          (revokeDownloadToken n1 false st tid).1 tid).2 = true) ∧
    (∀ (n : Int) (b : Bool) (st : Store) (tid : Nat),
        (revokeDownloadToken n b st tid).1.tokens.map
            SecureDownloadToken.download_count
          = st.tokens.map SecureDownloadToken.download_count ∧
        (revokeDownloadToken n b st tid).1.attempts = st.attempts) := by
  refine ⟨fun n1 n2 st tid => ⟨rfl, rfl⟩, fun n b st tid => ?_⟩
  cases b
  · refine ⟨?_, rfl⟩
    show (st.tokens.map fun t =>
        if t.id == tid then { t with is_active := false, updated_at := n }
        else t).map SecureDownloadToken.download_count
      = st.tokens.map SecureDownloadToken.download_count
    rw [List.map_map]
    apply List.map_congr_left
    intro t _
    simp only [Function.comp_apply]
    split <;> rfl
  · exact ⟨rfl, rfl⟩

/-- C2 (code evaluation at the failing input): when every check passes but
the download-count update reports an error, `verifyDownloadToken` still
returns `valid := true` with no failure reason, audits the attempt as a
success, and leaves the download count unchanged — it does not re-treat
the outcome as a quota failure as the specification requires. -/
theorem C2_update_failure_still_reported_success :
    (verifyDownloadToken envUpdateFail baseStore (("TOK").data)
      (("user@example.com").data) none none).result.valid = true ∧
    (verifyDownloadToken envUpdateFail baseStore (("TOK").data)
      (("user@example.com").data) none none).result.reason = none ∧
    (verifyDownloadToken envUpdateFail baseStore (("TOK").data)
      (("user@example.com").data) none none).auditCalls.map
        DownloadAttempt.success = [true] ∧
    (verifyDownloadToken envUpdateFail baseStore (("TOK").data)
      (("user@example.com").data) none none).store.tokens.map
        SecureDownloadToken.download_count = [0] := by
  exact ⟨rfl, rfl, rfl, rfl⟩

/-- C7 (counterexample): the claim's characterisation of `validateEmail`
fails in both directions.  `" a@b.c "` contains whitespace, so the claim
says it is rejected, but `validateEmail` trims first and accepts it;
`"a@b."` has exactly one `@`, a non-empty local part and a domain
containing a `.`, so the claim says it is accepted, but the regex
requires a non-empty run of `[^\s@]` after the dot and rejects it. -/
theorem C7_counterexample :
    validateEmail ((" a@b.c ").data) = true ∧
    claimedValidEmail ((" a@b.c ").data) = false ∧
    validateEmail (("a@b.").data) = false ∧
    claimedValidEmail (("a@b.").data) = true := by
  exact ⟨rfl, rfl, rfl, rfl⟩

/-- C9: the audit logger swallows datastore insert failures — as a total
function it never raises, and when the insert fails it leaves the store
unchanged; consequently neither the value returned by
`verifyDownloadToken` nor the sequence of logger invocations depends on
whether the audit insert succeeds. -/
theorem C9_audit_failure_never_changes_result :
    (∀ (env : VerifyEnv) (st : Store) (tid : Option Nat) (em : JStr)
        (s : Bool) (r : Option FailureReason) (ip ua : Option JStr),
        logDownloadAttempt { env with auditInsertFails := true } st tid em s r
          ip ua = st) ∧
    (∀ (env : VerifyEnv) (b : Bool) (st : Store) (tok em : JStr)
        (ip ua : Option JStr),
        (verifyDownloadToken { env with auditInsertFails := b } st tok em
            ip ua).result
          = (verifyDownloadToken env st tok em ip ua).result ∧
        (verifyDownloadToken { env with auditInsertFails := b } st tok em
            ip ua).auditCalls
          = (verifyDownloadToken env st tok em ip ua).auditCalls) := by
  constructor
  · intro env st tid em s r ip ua
    simp [logDownloadAttempt]
  · intro env b st tok em ip ua
    obtain ⟨n, s, u, a⟩ := env
    cases s
    · cases hf : findToken st tok
      · simp [verifyDownloadToken, hf, mkAttempt]
      · rename_i t
        simp only [verifyDownloadToken, hf]
        split_ifs <;>
          first
            | exact ⟨rfl, rfl⟩
            | (cases hd : findDocument st t <;> simp [hd, mkAttempt])
    · simp [verifyDownloadToken, mkAttempt]


/-- Branch characterisation: the catch branch (source lines 303–307). -/
theorem verify_eq_systemError (env : VerifyEnv) (st : Store) (tok em : JStr)
    (ip ua : Option JStr) (h : env.systemError = true) :
    verifyDownloadToken env st tok em ip ua =
      { result := { valid := false, document := none,
                    reason := some .systemError, tokenData := none }
        store := logDownloadAttempt env st none (lowerTrim em) false
          (some .systemError) ip ua
        auditCalls := [mkAttempt env none (lowerTrim em) false
          (some .systemError) ip ua] } := by
  simp [verifyDownloadToken, h]

/-- Branch characterisation: lookup failure (source lines 210–214). -/
theorem verify_eq_notFound (env : VerifyEnv) (st : Store) (tok em : JStr)
    (ip ua : Option JStr) (h : env.systemError = false)
    (hf : findToken st tok = none) :
    verifyDownloadToken env st tok em ip ua =
      { result := { valid := false, document := none,
                    reason := some .invalidOrExpired, tokenData := none }
        store := logDownloadAttempt env st none (lowerTrim em) false
          (some .invalidOrExpired) ip ua
        auditCalls := [mkAttempt env none (lowerTrim em) false
          (some .invalidOrExpired) ip ua] } := by
  simp [verifyDownloadToken, h, hf]

/-- Branch characterisation: expiration failure with lazy deactivation
(source lines 220–238). -/
theorem verify_eq_expired (env : VerifyEnv) (st : Store) (tok em : JStr)
    (ip ua : Option JStr) (t : SecureDownloadToken)
    (h : env.systemError = false) (hf : findToken st tok = some t)
    (hx : env.now > t.expires_at) :
    verifyDownloadToken env st tok em ip ua =
      { result := { valid := false, document := none,
                    reason := some .tokenExpired, tokenData := some t }
        store :=
          { logDownloadAttempt env st (some t.id) (lowerTrim em) false
              (some .tokenExpired) ip ua with
            tokens := (logDownloadAttempt env st (some t.id) (lowerTrim em)
              false (some .tokenExpired) ip ua).tokens.map (fun u =>
                if u.id == t.id then
                  { u with is_active := false, updated_at := env.now } else u) }
        auditCalls := [mkAttempt env (some t.id) (lowerTrim em) false
          (some .tokenExpired) ip ua] } := by
  simp [verifyDownloadToken, h, hf, hx]

/-- Branch characterisation: email mismatch (source lines 244–255). -/
theorem verify_eq_mismatch (env : VerifyEnv) (st : Store) (tok em : JStr)
    (ip ua : Option JStr) (t : SecureDownloadToken)
    (h : env.systemError = false) (hf : findToken st tok = some t)
    (hx : ¬ env.now > t.expires_at)
    (hm : emailMatches t.recipient_email em = false) :
    verifyDownloadToken env st tok em ip ua =
      { result := { valid := false, document := none,
                    reason := some .emailMismatch, tokenData := some t }
        store := logDownloadAttempt env st (some t.id) (lowerTrim em) false
          (some .emailMismatch) ip ua
        auditCalls := [mkAttempt env (some t.id) (lowerTrim em) false
          (some .emailMismatch) ip ua] } := by
  simp [verifyDownloadToken, h, hf, hx, hm]

/-- Branch characterisation: quota failure (source lines 258–266). -/
theorem verify_eq_quota (env : VerifyEnv) (st : Store) (tok em : JStr)
    (ip ua : Option JStr) (t : SecureDownloadToken)
    (h : env.systemError = false) (hf : findToken st tok = some t)
    (hx : ¬ env.now > t.expires_at)
    (hm : emailMatches t.recipient_email em = true)
    (hq : t.download_count ≥ t.max_downloads) :
    verifyDownloadToken env st tok em ip ua =
      { result := { valid := false, document := none,
                    reason := some .downloadLimitExceeded, tokenData := some t }
        store := logDownloadAttempt env st (some t.id) (lowerTrim em) false
          (some .downloadLimitExceeded) ip ua
        auditCalls := [mkAttempt env (some t.id) (lowerTrim em) false
          (some .downloadLimitExceeded) ip ua] } := by
  simp [verifyDownloadToken, h, hf, hx, hm, hq]

/-- Branch characterisation: missing document (source lines 269–277). -/
theorem verify_eq_docMissing (env : VerifyEnv) (st : Store) (tok em : JStr)
    (ip ua : Option JStr) (t : SecureDownloadToken)
    (h : env.systemError = false) (hf : findToken st tok = some t)
    (hx : ¬ env.now > t.expires_at)
    (hm : emailMatches t.recipient_email em = true)
    (hq : ¬ t.download_count ≥ t.max_downloads)
    (hd : findDocument st t = none) :
    verifyDownloadToken env st tok em ip ua =
      { result := { valid := false, document := none,
                    reason := some .documentNotFound, tokenData := some t }
        store := logDownloadAttempt env st (some t.id) (lowerTrim em) false
          (some .documentNotFound) ip ua
        auditCalls := [mkAttempt env (some t.id) (lowerTrim em) false
          (some .documentNotFound) ip ua] } := by
  simp [verifyDownloadToken, h, hf, hx, hm, hq, hd]

/-- Branch characterisation: success, with the success audit and the
snapshot-based count update (source lines 279–301). -/
theorem verify_eq_success (env : VerifyEnv) (st : Store) (tok em : JStr)
    (ip ua : Option JStr) (t : SecureDownloadToken) (doc : ProjectDocument)
    (h : env.systemError = false) (hf : findToken st tok = some t)
    (hx : ¬ env.now > t.expires_at)
    (hm : emailMatches t.recipient_email em = true)
    (hq : ¬ t.download_count ≥ t.max_downloads)
    (hd : findDocument st t = some doc) :
    verifyDownloadToken env st tok em ip ua =
      { result := { valid := true, document := some doc, reason := none,
                    tokenData := some t }
        store :=
          if env.updateCountFails then
            logDownloadAttempt env st (some t.id) (lowerTrim em) true none ip ua
          else
            { logDownloadAttempt env st (some t.id) (lowerTrim em) true none
                ip ua with
              tokens := (logDownloadAttempt env st (some t.id) (lowerTrim em)
                true none ip ua).tokens.map (fun u =>
                  if u.id == t.id then
                    { u with download_count := t.download_count + 1,
                             updated_at := env.now } else u) }
        auditCalls := [mkAttempt env (some t.id) (lowerTrim em) true none
          ip ua] } := by
  simp [verifyDownloadToken, h, hf, hx, hm, hq, hd]

/-- C3: verification applies its checks in the fixed order lookup,
expiration, email match, quota, document existence, short-circuiting at
the first failing check — the reason returned is exactly
`firstFailingCheck`, and the call succeeds exactly when no check fails —
and every call, on every branch, invokes the audit logger exactly once,
with the success flag and failure reason of that single audit record
matching the returned outcome. -/
theorem C3_ordered_checks_single_audit :
    ∀ (env : VerifyEnv) (st : Store) (tok em : JStr) (ip ua : Option JStr),
      (verifyDownloadToken env st tok em ip ua).auditCalls.length = 1 ∧
      (verifyDownloadToken env st tok em ip ua).result.reason
        = firstFailingCheck env st tok em ∧
      ((verifyDownloadToken env st tok em ip ua).result.valid = true ↔
        firstFailingCheck env st tok em = none) ∧
      ∀ a ∈ (verifyDownloadToken env st tok em ip ua).auditCalls,
        a.failure_reason = firstFailingCheck env st tok em ∧
        a.success = (verifyDownloadToken env st tok em ip ua).result.valid := by
  intro env st tok em ip ua
  cases hs : env.systemError
  · cases hf : findToken st tok
    · rw [verify_eq_notFound env st tok em ip ua hs hf]
      simp [firstFailingCheck, hs, hf, mkAttempt]
    · rename_i t
      by_cases hx : env.now > t.expires_at
      · rw [verify_eq_expired env st tok em ip ua t hs hf hx]
        simp [firstFailingCheck, hs, hf, hx, mkAttempt]
      · cases hm : emailMatches t.recipient_email em
        · rw [verify_eq_mismatch env st tok em ip ua t hs hf hx hm]
          simp [firstFailingCheck, hs, hf, hx, hm, mkAttempt]
        · by_cases hq : t.download_count ≥ t.max_downloads
          · rw [verify_eq_quota env st tok em ip ua t hs hf hx hm hq]
            simp [firstFailingCheck, hs, hf, hx, hm, hq, mkAttempt]
          · cases hd : findDocument st t
            · rw [verify_eq_docMissing env st tok em ip ua t hs hf hx hm hq hd]
              simp [firstFailingCheck, hs, hf, hx, hm, hq, hd, mkAttempt]
            · rename_i doc
              rw [verify_eq_success env st tok em ip ua t doc hs hf hx hm hq hd]
              simp [firstFailingCheck, hs, hf, hx, hm, hq, hd, mkAttempt]
  · rw [verify_eq_systemError env st tok em ip ua hs]
    simp [firstFailingCheck, hs, mkAttempt]

/-- C10: among the failure outcomes of verification, the returned value
carries the resolved token record exactly for the expiration,
email-mismatch, quota and document-missing failures; the lookup failure
and the system-error outcome are exactly the ones that omit it. -/
theorem C10_tokenData_exactly_on_resolved_failures :
    ∀ (env : VerifyEnv) (st : Store) (tok em : JStr) (ip ua : Option JStr),
      ((verifyDownloadToken env st tok em ip ua).result.tokenData = none ↔
        ((verifyDownloadToken env st tok em ip ua).result.reason
            = some FailureReason.invalidOrExpired ∨
          (verifyDownloadToken env st tok em ip ua).result.reason
            = some FailureReason.systemError)) ∧
      (((verifyDownloadToken env st tok em ip ua).result.valid = false ∧
          (verifyDownloadToken env st tok em ip ua).result.tokenData.isSome
            = true) ↔
        ((verifyDownloadToken env st tok em ip ua).result.reason
            = some FailureReason.tokenExpired ∨
          (verifyDownloadToken env st tok em ip ua).result.reason
            = some FailureReason.emailMismatch ∨
          (verifyDownloadToken env st tok em ip ua).result.reason
            = some FailureReason.downloadLimitExceeded ∨
          (verifyDownloadToken env st tok em ip ua).result.reason
            = some FailureReason.documentNotFound)) := by
  intro env st tok em ip ua
  cases hs : env.systemError
  · cases hf : findToken st tok
    · rw [verify_eq_notFound env st tok em ip ua hs hf]
      simp
    · rename_i t
      by_cases hx : env.now > t.expires_at
      · rw [verify_eq_expired env st tok em ip ua t hs hf hx]
        simp
      · cases hm : emailMatches t.recipient_email em
        · rw [verify_eq_mismatch env st tok em ip ua t hs hf hx hm]
          simp
        · by_cases hq : t.download_count ≥ t.max_downloads
          · rw [verify_eq_quota env st tok em ip ua t hs hf hx hm hq]
            simp
          · cases hd : findDocument st t
            · rw [verify_eq_docMissing env st tok em ip ua t hs hf hx hm hq hd]
              simp
            · rename_i doc
              rw [verify_eq_success env st tok em ip ua t doc hs hf hx hm hq hd]
              simp
  · rw [verify_eq_systemError env st tok em ip ua hs]
    simp

/-- The audit logger writes only the attempts table. -/
theorem logDownloadAttempt_tokens (env : VerifyEnv) (st : Store)
    (tid : Option Nat) (em : JStr) (s : Bool) (r : Option FailureReason)
    (ip ua : Option JStr) :
    (logDownloadAttempt env st tid em s r ip ua).tokens = st.tokens := by
  unfold logDownloadAttempt
  split <;> rfl

/-- The audit logger leaves the documents table unchanged as well. -/
theorem logDownloadAttempt_documents (env : VerifyEnv) (st : Store)
    (tid : Option Nat) (em : JStr) (s : Bool) (r : Option FailureReason)
    (ip ua : Option JStr) :
    (logDownloadAttempt env st tid em s r ip ua).documents = st.documents := by
  unfold logDownloadAttempt
  split <;> rfl

/-- C4: verifying an active token whose expiration lies strictly in the
past returns the `expired` failure and, as a side effect, deactivates
every row carrying that token string (lazy deactivation), so that a
second verification call with the same token string fails at the lookup
with `invalid_or_expired`. -/
theorem C4_expired_then_lazy_deactivation
    (env env2 : VerifyEnv) (st : Store) (tok em em2 : JStr)
    (ip ua ip2 ua2 : Option JStr) (t0 : SecureDownloadToken)
    (hs : env.systemError = false) (hs2 : env2.systemError = false)
    (hf : findToken st tok = some t0)
    (hx : env.now > t0.expires_at)
    (huniq : ∀ t ∈ st.tokens, t.token = tok → t.id = t0.id) :
    (verifyDownloadToken env st tok em ip ua).result.valid = false ∧
    (verifyDownloadToken env st tok em ip ua).result.reason
      = some FailureReason.tokenExpired ∧
    (∀ t ∈ (verifyDownloadToken env st tok em ip ua).store.tokens,
        t.token = tok → t.is_active = false) ∧
    (verifyDownloadToken env2 (verifyDownloadToken env st tok em ip ua).store
        tok em2 ip2 ua2).result.reason
      = some FailureReason.invalidOrExpired := by
  rw [verify_eq_expired env st tok em ip ua t0 hs hf hx]
  have hmem : ∀ t ∈ (st.tokens.map (fun u =>
      if u.id == t0.id then { u with is_active := false, updated_at := env.now }
      else u)), t.token = tok → t.is_active = false := by
    intro t ht htok
    obtain ⟨u, hu, rfl⟩ := List.mem_map.1 ht
    cases hbeq : (u.id == t0.id)
    · simp only [hbeq, Bool.false_eq_true, if_false] at htok ⊢
      exact absurd (huniq u hu htok) (by simpa using hbeq)
    · simp
  refine ⟨rfl, rfl, ?_, ?_⟩
  · simpa [logDownloadAttempt_tokens] using hmem
  · have hnone : findToken
        { logDownloadAttempt env st (some t0.id) (lowerTrim em) false
            (some .tokenExpired) ip ua with
          tokens := (logDownloadAttempt env st (some t0.id) (lowerTrim em)
            false (some .tokenExpired) ip ua).tokens.map (fun u =>
              if u.id == t0.id then
                { u with is_active := false, updated_at := env.now } else u) }
        tok = none := by
      unfold findToken
      apply List.find?_eq_none.2
      intro x hx2
      simp only [logDownloadAttempt_tokens] at hx2
      intro hcontra
      simp only [Bool.and_eq_true, beq_iff_eq] at hcontra
      have hact := hmem x hx2 hcontra.1
      rw [hact] at hcontra
      exact absurd hcontra.2 (by simp)
    rw [verify_eq_notFound env2 _ tok em2 ip2 ua2 hs2 hnone]

/-- Every interleaving step preserves the quota invariant: the success
write stores `snap.download_count + 1` for a snapshot that passed the
quota check, so it can never exceed the (immutable) ceiling. -/
theorem CStep_preserves_CInv {M : Nat} {s1 s2 : CState}
    (hstep : CStep s1 s2) (hinv : CInv M s1) : CInv M s2 := by
  obtain ⟨hmax, hcount, hsess⟩ := hinv
  cases hstep with
  | read row l1 l2 =>
    refine ⟨hmax, hcount, ?_⟩
    intro x hx
    rcases List.mem_append.1 hx with h1 | h2
    · exact hsess x (List.mem_append.2 (Or.inl h1))
    · rcases List.mem_cons.1 h2 with rfl | h3
      · exact hmax
      · exact hsess x (List.mem_append.2 (Or.inr (List.mem_cons.2 (Or.inr h3))))
  | writeCount row snap l1 l2 t h =>
    have hsnap : snap.max_downloads = M :=
      hsess (SessState.got snap)
        (List.mem_append.2 (Or.inr (List.mem_cons.2 (Or.inl rfl))))
    refine ⟨hmax, ?_, ?_⟩
    · show snap.download_count + 1 ≤ M
      omega
    · intro x hx
      rcases List.mem_append.1 hx with h1 | h2
      · exact hsess x (List.mem_append.2 (Or.inl h1))
      · rcases List.mem_cons.1 h2 with rfl | h3
        · trivial
        · exact hsess x (List.mem_append.2 (Or.inr (List.mem_cons.2 (Or.inr h3))))
  | deactivate row snap l1 l2 t =>
    refine ⟨hmax, hcount, ?_⟩
    intro x hx
    rcases List.mem_append.1 hx with h1 | h2
    · exact hsess x (List.mem_append.2 (Or.inl h1))
    · rcases List.mem_cons.1 h2 with rfl | h3
      · trivial
      · exact hsess x (List.mem_append.2 (Or.inr (List.mem_cons.2 (Or.inr h3))))
  | abort row snap l1 l2 =>
    refine ⟨hmax, hcount, ?_⟩
    intro x hx
    rcases List.mem_append.1 hx with h1 | h2
    · exact hsess x (List.mem_append.2 (Or.inl h1))
    · rcases List.mem_cons.1 h2 with rfl | h3
      · trivial
      · exact hsess x (List.mem_append.2 (Or.inr (List.mem_cons.2 (Or.inr h3))))

/-- C1: starting from fresh verification calls against a token row whose
counter is within its ceiling, every state reachable by any interleaving
of concurrent verification calls — each an arbitrary mix of snapshot
reads, guarded snapshot-based count writes, expiry deactivations and
aborted calls — keeps `0 ≤ downloadCount ≤ maxDownloads`; in particular
no success-branch increment ever pushes the counter above the ceiling. -/
theorem C1_quota_invariant_reachable (init fin : CState)
    (hcount : init.row.download_count ≤ init.row.max_downloads)
    (hpend : ∀ s ∈ init.sessions, s = SessState.pending)
    (hreach : CReach init fin) :
    0 ≤ fin.row.download_count ∧
      fin.row.download_count ≤ fin.row.max_downloads := by
  have hinv : CInv init.row.max_downloads fin := by
    have h0 : CInv init.row.max_downloads init := by
      refine ⟨rfl, hcount, ?_⟩
      intro s hs
      rw [hpend s hs]
      trivial
    induction hreach with
    | refl => exact h0
    | tail hr hstep ih => exact CStep_preserves_CInv hstep ih
  exact ⟨Nat.zero_le _, le_of_le_of_eq hinv.2.1 hinv.1.symm⟩

/-- Concrete fixture for the interleaving model: the fixture token with a
quota of one. -/
def rowW : SecureDownloadToken := { tokRow with max_downloads := 1 }

/-- The shared row after one successful snapshot-based count write. -/
def rowW1 : SecureDownloadToken :=
  { rowW with download_count := rowW.download_count + 1, updated_at := 9 }

/-- Initial interleaving state: two fresh verification calls racing on
`rowW`. -/
def initW : CState :=
  { row := rowW, sessions := [SessState.pending, SessState.pending] }

/-- Final interleaving state after the schedule read–read–write–abort. -/
def finW : CState :=
  { row := rowW1, sessions := [SessState.done, SessState.done] }

/-- Witness for C1: the schedule in which both racing calls snapshot the
row before either writes — the schedule the specification worries
about — still ends within quota. -/
theorem C1_quota_invariant_reachable_witness :
    0 ≤ finW.row.download_count ∧
      finW.row.download_count ≤ finW.row.max_downloads :=
  C1_quota_invariant_reachable initW finW (by decide) (by decide)
    (Relation.ReflTransGen.tail
      (Relation.ReflTransGen.tail
        (Relation.ReflTransGen.tail
          (Relation.ReflTransGen.single
            (CStep.read rowW [] [SessState.pending]))
          (CStep.read rowW [SessState.got rowW] []))
        (CStep.writeCount rowW rowW [] [SessState.got rowW] 9 (by decide)))
      (CStep.abort rowW1 rowW [SessState.done] []))

/-- Concrete fixture: a verification environment at time 2000, after the
fixture token's expiration. -/
def envLate : VerifyEnv := { envOk with now := 2000 }

/-- Witness for C4: the fixture token, verified after its expiration,
yields `expired`, is deactivated, and a second call yields
`invalid_or_expired`. -/
theorem C4_expired_then_lazy_deactivation_witness :
    (verifyDownloadToken envLate baseStore (("TOK").data)
      (("user@example.com").data) none none).result.valid = false ∧
    (verifyDownloadToken envLate baseStore (("TOK").data)
      (("user@example.com").data) none none).result.reason
      = some FailureReason.tokenExpired ∧
    (∀ t ∈ (verifyDownloadToken envLate baseStore (("TOK").data)
        (("user@example.com").data) none none).store.tokens,
        t.token = ("TOK").data → t.is_active = false) ∧
    (verifyDownloadToken envLate (verifyDownloadToken envLate baseStore
        (("TOK").data) (("user@example.com").data) none none).store
        (("TOK").data) (("other@x.com").data) none none).result.reason
      = some FailureReason.invalidOrExpired :=
  C4_expired_then_lazy_deactivation envLate envLate baseStore (("TOK").data)
    (("user@example.com").data) (("other@x.com").data) none none none none
    tokRow rfl rfl (by decide) (by decide) (by decide)

/-- The references produced by the generation loop: one per document whose
processing neither threw nor had its insert rejected, in batch order,
regardless of earlier documents' failures. -/
theorem generateLoop_refs (env : GenEnv) (recipientEmail : JStr)
    (orderId : Nat) (expiresAt : Int) (cfg : SecureDownloadConfig) :
    ∀ (docs : List GenDoc) (i : Nat) (st : Store),
      (generateLoop env recipientEmail orderId expiresAt cfg i docs st).1 =
        (docs.enumFrom i).filterMap (fun p =>
          if genSucceeds env p.1 then
            some ⟨p.2.id, p.2.name,
              mkSecureUrl env
                (match env.rpcToken p.1 with
                  | some t => t
                  | none => env.clientToken p.1) recipientEmail,
              expiresAt⟩
          else none) := by
  intro docs
  induction docs with
  | nil => intro i st; rfl
  | cons d rest ih =>
    intro i st
    by_cases hthrow : env.docThrows i = true
    · have hsucc : genSucceeds env i = false := by
        simp [genSucceeds, hthrow]
      simp [generateLoop, hthrow, List.enumFrom, hsucc, ih]
    · by_cases hstore : env.storeFails i = true
      · have hsucc : genSucceeds env i = false := by
          simp [genSucceeds, hstore]
        simp [generateLoop, hthrow, hstore, List.enumFrom, hsucc, ih]
      · have hsucc : genSucceeds env i = true := by
          simp [genSucceeds, hthrow, hstore]
        simp [generateLoop, hthrow, hstore, List.enumFrom, hsucc, ih]

/-- Concrete fixture: a generation batch environment where the datastore
rejects the insert of the second document (batch position 1) and all
other operations succeed. -/
def envGen3 : GenEnv :=
  { rpcToken := fun _ => some (("T").data)
    clientToken := fun _ => ("C").data
    storeFails := fun i => i == 1
    docThrows := fun _ => false
    newId := fun i => i + 100
    baseUrl := ("https://x.test").data
    encodeEmail := fun s => s
    now := 0 }

/-- Concrete fixture: a batch of three documents. -/
def docs3 : List GenDoc :=
  [{ id := 1, name := ("A").data, url := ("ua").data },
   { id := 2, name := ("B").data, url := ("ub").data },
   { id := 3, name := ("C3").data, url := ("uc").data }]

/-- C6: token generation isolates per-document failures — as a total
function it propagates no exception out of the batch, and it returns
exactly one shareable reference per document whose insert succeeded, in
batch order: the returned list is the filter of the batch by per-document
success.  In particular, for three documents of which the datastore
rejects one, exactly the other two references are returned. -/
theorem C6_generation_isolates_failures :
    (∀ (env : GenEnv) (documents : List GenDoc) (recipientEmail : JStr)
        (orderId : Nat) (config : PartialSecureDownloadConfig) (st : Store),
      (generateSecureDownloadTokens env documents recipientEmail orderId
          config st).1
        = (documents.enumFrom 0).filterMap (fun p =>
            if genSucceeds env p.1 then
              some ⟨p.2.id, p.2.name,
                mkSecureUrl env
                  (match env.rpcToken p.1 with
                    | some t => t
                    | none => env.clientToken p.1) recipientEmail,
                env.now + (mergeConfig config).expirationHours * 3600000⟩
            else none)) ∧
    (generateSecureDownloadTokens envGen3 docs3 (("buyer@x.com").data) 7
        {} baseStore).1.map GenRef.documentId = [1, 3] := by
  constructor
  · intro env documents recipientEmail orderId config st
    exact generateLoop_refs env recipientEmail orderId _ _ documents 0 st
  · rfl

/-- An element of `t.dropLast` splits `t` with a non-empty tail after it. -/
theorem mem_dropLast_decomp {c : Char} :
    ∀ {t : JStr}, c ∈ t.dropLast → ∃ x y, t = x ++ c :: y ∧ y ≠ [] := by
  intro t
  induction t with
  | nil => intro h; simp at h
  | cons d t2 ih =>
    intro h
    cases t2 with
    | nil => simp at h
    | cons e t3 =>
      rw [List.dropLast_cons₂] at h
      rcases List.mem_cons.1 h with rfl | h2
      · exact ⟨[], e :: t3, rfl, by simp⟩
      · obtain ⟨x, y, heq, hy⟩ := ih h2
        exact ⟨d :: x, y, by simp [heq], hy⟩

/-- An element of `m.tail.dropLast` sits strictly inside `m`: it splits
`m` with non-empty parts on both sides. -/
theorem mem_tail_dropLast_decomp {c : Char} {m : JStr}
    (h : c ∈ m.tail.dropLast) :
    ∃ x y, m = x ++ c :: y ∧ x ≠ [] ∧ y ≠ [] := by
  cases m with
  | nil => simp at h
  | cons d t =>
    obtain ⟨x, y, heq, hy⟩ := mem_dropLast_decomp (by simpa using h)
    exact ⟨d :: x, y, by simp [heq], by simp, hy⟩

/-- Lemma: `dropWhile` skips over a prefix all of whose elements satisfy the
predicate. -/
theorem dropWhile_append_all {p : Char → Bool} :
    ∀ {a r : JStr}, (∀ c ∈ a, p c = true) →
      (a ++ r).dropWhile p = r.dropWhile p := by
  intro a
  induction a with
  | nil => intro r _; rfl
  | cons c a2 ih =>
    intro r h
    rw [List.cons_append,
      List.dropWhile_cons_of_pos (h c (List.mem_cons_self c a2))]
    exact ih fun c2 hc2 => h c2 (List.mem_cons_of_mem _ hc2)

/-- Lemma: `takeWhile` takes exactly a satisfying prefix when the next element
fails the predicate. -/
theorem takeWhile_append_stop {p : Char → Bool} {c0 : Char} :
    ∀ {a r : JStr}, (∀ c ∈ a, p c = true) → p c0 = false →
      (a ++ c0 :: r).takeWhile p = a := by
  intro a
  induction a with
  | nil =>
    intro r _ h0
    exact List.takeWhile_cons_of_neg (by simp [h0])
  | cons c a2 ih =>
    intro r h h0
    rw [List.cons_append,
      List.takeWhile_cons_of_pos (h c (List.mem_cons_self c a2))]
    rw [ih (fun c2 hc2 => h c2 (List.mem_cons_of_mem _ hc2)) h0]

/-- The regex decision procedure agrees with its declarative reading. -/
theorem emailRegexTest_iff_spec (m : JStr) :
    emailRegexTest m = true ↔ emailRegexSpec m := by
  constructor
  · intro h
    unfold emailRegexTest at h
    split at h
    · rename_i b heq
      simp only [Bool.and_eq_true] at h
      obtain ⟨⟨h1, h2⟩, h3⟩ := h
      have hm : m.takeWhile emailChar ++ '@' :: b = m := by
        rw [← heq]
        exact List.takeWhile_append_dropWhile emailChar m
      have hmem : ('.' : Char) ∈ b.tail.dropLast := List.elem_iff.mp h3
      obtain ⟨x, y, hb, hx, hy⟩ := mem_tail_dropLast_decomp hmem
      have hallb : ∀ c ∈ b, emailChar c = true := by
        intro c hc
        exact List.all_eq_true.mp h2 c hc
      refine ⟨m.takeWhile emailChar, x, y, ?_, ?_, hx, hy, ?_, ?_, ?_⟩
      · rw [hb] at hm
        exact hm.symm
      · intro hnil
        rw [hnil] at h1
        simp at h1
      · exact fun c hc => List.mem_takeWhile_imp hc
      · intro c hc
        exact hallb c (by rw [hb]; exact List.mem_append.2 (Or.inl hc))
      · intro c hc
        refine hallb c ?_
        rw [hb]
        exact List.mem_append.2 (Or.inr (List.mem_cons_of_mem _ hc))
    · simp at h
  · rintro ⟨a, x, y, hm, hane, hxne, hyne, hca, hcx, hcy⟩
    subst hm
    have hdw : ((a ++ '@' :: (x ++ '.' :: y)).dropWhile emailChar)
        = '@' :: (x ++ '.' :: y) := by
      rw [dropWhile_append_all hca]
      exact List.dropWhile_cons_of_neg (by decide)
    have htw : ((a ++ '@' :: (x ++ '.' :: y)).takeWhile emailChar) = a :=
      takeWhile_append_stop hca (by decide)
    simp only [emailRegexTest, hdw, htw, Bool.and_eq_true]
    refine ⟨⟨?_, ?_⟩, ?_⟩
    · cases a with
      | nil => exact absurd rfl hane
      | cons c a2 => rfl
    · apply List.all_eq_true.mpr
      intro c hc
      rcases List.mem_append.1 hc with h1 | h2
      · exact hcx c h1
      · rcases List.mem_cons.1 h2 with rfl | h3
        · decide
        · exact hcy c h3
    · apply List.elem_iff.mpr
      obtain ⟨x0, x2, rfl⟩ := List.exists_cons_of_ne_nil hxne
      show ('.' : Char) ∈ ((x0 :: x2 ++ '.' :: y).tail.dropLast)
      rw [List.cons_append, List.tail_cons,
        List.dropLast_append_of_ne_nil x2 (by simp : ('.' :: y) ≠ []),
        List.dropLast_cons_of_ne_nil hyne]
      exact List.mem_append.2 (Or.inr (List.mem_cons_self _ _))

/-- C7 (amended): `validateEmail` returns true exactly when the input,
after trimming leading and trailing whitespace, splits as
`local ++ @ ++ x ++ . ++ y` with `local`, `x` and `y` all non-empty and
free of whitespace and `@` — i.e. exactly one `@`, a non-empty local
part, and a domain with a `.` that has at least one character on each
side. -/
theorem C7_amended_validateEmail_characterisation :
    ∀ email : JStr,
      validateEmail email = true ↔ emailRegexSpec (jsTrim email) := by
  intro email
  exact emailRegexTest_iff_spec (jsTrim email)

/-- Witness for C3: the pipeline at the concrete success fixture. -/
theorem C3_ordered_checks_single_audit_witness :
    (verifyDownloadToken envOk baseStore (("TOK").data)
        (("user@example.com").data) none none).auditCalls.length = 1 ∧
    (verifyDownloadToken envOk baseStore (("TOK").data)
        (("user@example.com").data) none none).result.reason
      = firstFailingCheck envOk baseStore (("TOK").data)
          (("user@example.com").data) ∧
    ((verifyDownloadToken envOk baseStore (("TOK").data)
        (("user@example.com").data) none none).result.valid = true ↔
      firstFailingCheck envOk baseStore (("TOK").data)
          (("user@example.com").data) = none) ∧
    ∀ a ∈ (verifyDownloadToken envOk baseStore (("TOK").data)
        (("user@example.com").data) none none).auditCalls,
      a.failure_reason = firstFailingCheck envOk baseStore (("TOK").data)
          (("user@example.com").data) ∧
      a.success = (verifyDownloadToken envOk baseStore (("TOK").data)
          (("user@example.com").data) none none).result.valid :=
  C3_ordered_checks_single_audit envOk baseStore (("TOK").data)
    (("user@example.com").data) none none
